import Mathlib

/-!
Verification of the TrendRadar analysis-and-notification pipeline.

Shallow embedding of the relevant parts of the repository:
multi-account config parsing and validation (trendradar/core/config.py),
storage backend resolution, fallback and retention cleanup
(trendradar/storage/manager.py), and the mode-strategy, content-gate and
push-window logic of NewsAnalyzer (trendradar/__main__.py).

Python dicts are embedded as association lists, string-or-None values as
`Option String` with Python truthiness made explicit, and fallible or
effectful operations return explicit outcome data (`Except`, call traces).
Python `str.split` and `str.strip` are implemented over the character list
of a `String` so that every definition evaluates by kernel reduction.
-/

namespace TrendRadar

/-- Truthiness of a Python string-or-None value: `None` and `""` are falsy. -/
def truthy : Option String → Bool
  | none => false
  | some s => !s.isEmpty

/-- Python `a or b` on string-or-None values: `a` when truthy, else `b`. -/
def pyOr (a b : Option String) : Option String :=
  if truthy a then a else b

/-- Python `str.split` with a one-character separator, on the character
list: `n` separator occurrences yield `n + 1` (possibly empty) parts. -/
def split_on_char (sep : Char) : List Char → List (List Char)
  | [] => [[]]
  | c :: rest =>
    let r := split_on_char sep rest
    if c = sep then [] :: r
    else (c :: r.headD []) :: r.tail

/-- Python `str.split` on a `String` with a one-character separator. -/
def py_split (s : String) (sep : Char) : List String :=
  (split_on_char sep s.toList).map (fun cs => cs.asString)

/-- Python `str.strip`: drop leading and trailing whitespace. -/
def py_strip (s : String) : String :=
  (((s.toList.dropWhile Char.isWhitespace).reverse.dropWhile
      Char.isWhitespace).reverse).asString

/-- The function `parse_multi_account_config` from trendradar/core/config.py:
split on the separator, strip each element, and return `[]` when the input
string is empty or when every element is empty after stripping. -/
def parse_multi_account_config (config_value : String) (separator : Char) :
    List String :=
  if config_value.isEmpty then []
  else
    let accounts := (py_split config_value separator).map py_strip
    if accounts.all (fun acc => acc.isEmpty) then []
    else accounts

/-- The function `validate_paired_configs` from trendradar/core/config.py; the
`configs` dict is an association list from config-key to account list, and the
result is (validation passed, account count). -/
def validate_paired_configs (configs : List (String × List String))
    (required_keys : Option (List String)) : Bool × Nat :=
  let non_empty_configs := configs.filter (fun p => !p.2.isEmpty)
  if non_empty_configs.isEmpty then (true, 0)
  else
    let requiredEmpty :=
      match required_keys with
      | none => false
      | some keys =>
        keys.any (fun key =>
          match non_empty_configs.lookup key with
          | none => true
          | some v => v.isEmpty)
    if requiredEmpty then (true, 0)
    else
      let unique_lengths := (non_empty_configs.map (fun p => p.2.length)).dedup
      if unique_lengths.length > 1 then (false, 0)
      else (true, unique_lengths.headD 0)

/-- The two storage backend implementations of trendradar/storage. -/
inductive BackendKind
  | localB
  | remoteB
deriving DecidableEq

/-- Remote-credential slots of the `remote_config` dict passed to
`StorageManager`: each field is the config value when the key is present,
and `none` when the key is absent. -/
structure RemoteConfig where
  bucket_name : Option String
  access_key_id : Option String
  secret_access_key : Option String
  endpoint_url : Option String

/-- Process environment read by `StorageManager`: the GITHUB_ACTIONS flag
and the S3_* credential variables (`none` when unset). -/
structure Env where
  github_actions : Bool
  s3_bucket_name : Option String
  s3_access_key_id : Option String
  s3_secret_access_key : Option String
  s3_endpoint_url : Option String

/-- State of `StorageManager` (trendradar/storage/manager.py) with the
backend objects abstracted: `remote_ok` is whether `RemoteStorageBackend`
construction succeeds (the import and the constructor; both failure kinds
are caught in the source), `cached` is the `_backend` attribute,
`remote_backend_cached` is whether `_remote_backend` is already set, and the
`*_cleanup_count` fields abstract each backend's `cleanup_old_data` return
value as a function of the retention-days argument. -/
structure Manager where
  backend_type : String
  remote_config : RemoteConfig
  local_retention_days : Int
  remote_retention_days : Int
  cached : Option BackendKind
  remote_backend_cached : Bool
  remote_ok : Bool
  local_cleanup_count : Int → Nat
  remote_cleanup_count : Int → Nat

/-- The method `StorageManager._has_remote_config`: all four credentials must
be truthy, the config value taking precedence over the environment
variable. -/
def has_remote_config (m : Manager) (env : Env) : Bool :=
  truthy (pyOr m.remote_config.bucket_name env.s3_bucket_name)
    && truthy (pyOr m.remote_config.access_key_id env.s3_access_key_id)
    && truthy (pyOr m.remote_config.secret_access_key env.s3_secret_access_key)
    && truthy (pyOr m.remote_config.endpoint_url env.s3_endpoint_url)

/-- The method `StorageManager._resolve_backend_type`. -/
def resolve_backend_type (m : Manager) (env : Env) : String :=
  if m.backend_type = "auto" then
    if env.github_actions then
      if has_remote_config m env then "remote" else "local"
    else "local"
  else m.backend_type

/-- The method `StorageManager._create_remote_backend`: the remote backend
when construction succeeds, `none` when the import or the constructor fails
(both exceptions are caught in the source and turned into `None`). -/
def create_remote_backend (m : Manager) : Option BackendKind :=
  if m.remote_ok then some BackendKind.remoteB else none

/-- The method `StorageManager.get_backend`: memoized; a resolved remote type
tries the remote backend and falls back to the local backend when
construction fails; every other resolved type yields the local backend. -/
def get_backend (m : Manager) (env : Env) : BackendKind × Manager :=
  match m.cached with
  | some b => (b, m)
  | none =>
    let resolved := resolve_backend_type m env
    let backend := if resolved = "remote" then create_remote_backend m else none
    match backend with
    | some b => (b, { m with cached := some b })
    | none => (BackendKind.localB, { m with cached := some BackendKind.localB })

/-- Dispatch a backend's abstract `cleanup_old_data` deletion count. -/
def backend_cleanup_count (m : Manager) : BackendKind → Int → Nat
  | BackendKind.localB => m.local_cleanup_count
  | BackendKind.remoteB => m.remote_cleanup_count

/-- The method `StorageManager.cleanup_old_data`: the total deleted count
together with the trace of (backend, retention-days) cleanup calls made.
The first branch calls `cleanup_old_data` on whatever `get_backend` returns
with the local retention; the second cleans the remote backend with the
remote retention when it is configured and constructible. -/
def cleanup_old_data (m : Manager) (env : Env) : Nat × List (BackendKind × Int) :=
  let localPart :=
    if 0 < m.local_retention_days then
      (backend_cleanup_count m (get_backend m env).1 m.local_retention_days,
        [((get_backend m env).1, m.local_retention_days)])
    else (0, [])
  let remotePart :=
    if 0 < m.remote_retention_days then
      if has_remote_config m env then
        if m.remote_backend_cached then
          (m.remote_cleanup_count m.remote_retention_days,
            [(BackendKind.remoteB, m.remote_retention_days)])
        else
          match create_remote_backend m with
          | some _ =>
            (m.remote_cleanup_count m.remote_retention_days,
              [(BackendKind.remoteB, m.remote_retention_days)])
          | none => (0, [])
      else (0, [])
    else (0, [])
  (localPart.1 + remotePart.1, localPart.2 ++ remotePart.2)

/-- One stat row of the frequency engine as consumed by
`NewsAnalyzer._has_valid_content` (only its `count` entry is read). -/
structure Stat where
  count : Nat
deriving DecidableEq

/-- Per-platform new-title lists as produced by `detect_new_titles`:
platform id paired with the list of new titles. -/
abbrev NewTitles := List (String × List String)

/-- Python `bool(new_titles and any(len(titles) > 0 for titles in
new_titles.values()))` from `NewsAnalyzer._has_valid_content`. -/
def has_any_new_titles (new_titles : Option NewTitles) : Bool :=
  match new_titles with
  | none => false
  | some l => l.any (fun p => decide (0 < p.2.length))

/-- The method `NewsAnalyzer._has_valid_content`: the per-mode content gate
deciding whether a prepared report is worth sending. -/
def has_valid_content (report_mode : String) (stats : List Stat)
    (new_titles : Option NewTitles) : Bool :=
  if report_mode = "incremental" then
    has_any_new_titles new_titles
      && stats.any (fun stat => decide (0 < stat.count))
  else if report_mode = "current" then
    stats.any (fun stat => decide (0 < stat.count))
  else
    stats.any (fun stat => decide (0 < stat.count))
      || has_any_new_titles new_titles

/-- One entry of `NewsAnalyzer.MODE_STRATEGIES`. -/
structure ModeStrategy where
  mode_name : String
  realtime_report_type : String
  summary_report_type : String
  should_send_realtime : Bool
  should_generate_summary : Bool
  summary_mode : String
deriving DecidableEq

/-- The `"incremental"` entry of `MODE_STRATEGIES`. -/
def incremental_strategy : ModeStrategy :=
  { mode_name := "Incremental Mode"
    realtime_report_type := "Real-time Incremental"
    summary_report_type := "Daily Summary"
    should_send_realtime := true
    should_generate_summary := true
    summary_mode := "daily" }

/-- The `"current"` entry of `MODE_STRATEGIES`. -/
def current_strategy : ModeStrategy :=
  { mode_name := "Current Rankings Mode"
    realtime_report_type := "Real-time Current Rankings"
    summary_report_type := "Current Rankings Summary"
    should_send_realtime := true
    should_generate_summary := true
    summary_mode := "current" }

/-- The `"daily"` entry of `MODE_STRATEGIES`. -/
def daily_strategy : ModeStrategy :=
  { mode_name := "Daily Summary Mode"
    realtime_report_type := ""
    summary_report_type := "Daily Summary"
    should_send_realtime := false
    should_generate_summary := true
    summary_mode := "daily" }

/-- The `MODE_STRATEGIES` dict as a lookup on the mode key. -/
def MODE_STRATEGIES (mode : String) : Option ModeStrategy :=
  if mode = "incremental" then some incremental_strategy
  else if mode = "current" then some current_strategy
  else if mode = "daily" then some daily_strategy
  else none

/-- The method `NewsAnalyzer._get_mode_strategy`: dict `.get` with the daily
strategy as the default. -/
def get_mode_strategy (report_mode : String) : ModeStrategy :=
  (MODE_STRATEGIES report_mode).getD daily_strategy

/-- Configuration and environment read by
`NewsAnalyzer._send_notification_if_needed`: the notification switch,
whether any channel is configured, the push-window settings, whether the
current time lies inside the configured window, today's push record, and
the per-channel success map `dispatch_all` would return. -/
structure NotifCfg where
  enable_notification : Bool
  has_channels : Bool
  push_window_enabled : Bool
  once_per_day : Bool
  in_time_range : Bool
  has_pushed_today : Bool
  dispatch_results : List (String × Bool)

/-- Observable outcome of one `_send_notification_if_needed` call:
its return value, whether `dispatcher.dispatch_all` was invoked, and
whether `record_push` ran. -/
structure SendOutcome where
  returned : Bool
  dispatched : Bool
  recorded : Bool
deriving DecidableEq

/-- The method `NewsAnalyzer._send_notification_if_needed`. -/
def send_notification_if_needed (cfg : NotifCfg) (report_mode : String)
    (stats : List Stat) (new_titles : Option NewTitles) : SendOutcome :=
  if cfg.enable_notification && cfg.has_channels
      && has_valid_content report_mode stats new_titles then
    if cfg.push_window_enabled && !cfg.in_time_range then
      { returned := false, dispatched := false, recorded := false }
    else if cfg.push_window_enabled && cfg.once_per_day
        && cfg.has_pushed_today then
      { returned := false, dispatched := false, recorded := false }
    else if cfg.dispatch_results.isEmpty then
      { returned := false, dispatched := true, recorded := false }
    else
      { returned := true, dispatched := true,
        recorded := cfg.push_window_enabled && cfg.once_per_day
          && cfg.dispatch_results.any (fun r => r.2) }
  else
    { returned := false, dispatched := false, recorded := false }

/-- Notification-relevant trace of one `_execute_mode_strategy` run:
how many times `_send_notification_if_needed` ran for the real-time and for
the summary report, what those calls dispatched and returned, and whether
the summary stage took the HTML-artifact-only path. -/
structure RunReport where
  realtime_send_calls : Nat
  realtime_dispatched : Bool
  realtime_returned : Bool
  summary_send_calls : Nat
  summary_dispatched : Bool
  summary_returned : Bool
  summary_html_only : Bool
deriving DecidableEq

/-- Assemble the run report from the optional real-time and summary send
outcomes and the summary-HTML-only flag. -/
def mk_run_report (rt : Option SendOutcome) (s : Option SendOutcome)
    (html_only : Bool) : RunReport :=
  { realtime_send_calls := match rt with | some _ => 1 | none => 0
    realtime_dispatched := match rt with | some o => o.dispatched | none => false
    realtime_returned := match rt with | some o => o.returned | none => false
    summary_send_calls := match s with | some _ => 1 | none => 0
    summary_dispatched := match s with | some o => o.dispatched | none => false
    summary_returned := match s with | some o => o.returned | none => false
    summary_html_only := html_only }

/-- Summary stage of `_execute_mode_strategy`: when the strategy also sends
real-time, `_generate_summary_html` runs (HTML artifact only, never a
notification); otherwise `_generate_summary_report` runs, which sends one
summary notification when the analysis data loads and nothing when the load
fails. The validity check inside the send uses the analyzer's report mode. -/
def summary_stage (strategy : ModeStrategy) (cfg : NotifCfg)
    (report_mode : String) (load_ok : Bool) (sum_stats : List Stat)
    (sum_new : Option NewTitles) : Option SendOutcome × Bool :=
  if strategy.should_generate_summary then
    if strategy.should_send_realtime then (none, true)
    else if load_ok then
      (some (send_notification_if_needed cfg report_mode sum_stats sum_new),
        false)
    else (none, false)
  else (none, false)

/-- The method `NewsAnalyzer._execute_mode_strategy`: `load_ok` is whether
`_load_analysis_data` succeeds; in current mode a load failure right after
the crawl was saved raises the data-consistency `RuntimeError`, embedded as
`Except.error`. The real-time stats/new-titles stand for the data fed to the
real-time send (the freshly crawled data, or the reloaded historical data in
current mode); the summary stats/new-titles for the data the summary stage
reloads. -/
def execute_mode_strategy (report_mode : String) (cfg : NotifCfg)
    (load_ok : Bool) (rt_stats : List Stat) (rt_new : Option NewTitles)
    (sum_stats : List Stat) (sum_new : Option NewTitles) :
    Except String RunReport :=
  let strategy := get_mode_strategy report_mode
  if report_mode = "current" then
    if load_ok then
      let rt :=
        if strategy.should_send_realtime then
          some (send_notification_if_needed cfg report_mode rt_stats rt_new)
        else none
      let s := summary_stage strategy cfg report_mode load_ok sum_stats sum_new
      Except.ok (mk_run_report rt s.1 s.2)
    else Except.error "Data consistency check failed: read failed after save"
  else
    let rt :=
      if strategy.should_send_realtime then
        some (send_notification_if_needed cfg report_mode rt_stats rt_new)
      else none
    let s := summary_stage strategy cfg report_mode load_ok sum_stats sum_new
    Except.ok (mk_run_report rt s.1 s.2)

/-- Environment with GitHub Actions off and no S3 variables set. -/
def plainEnv : Env :=
  { github_actions := false
    s3_bucket_name := none
    s3_access_key_id := none
    s3_secret_access_key := none
    s3_endpoint_url := none }

/-- Environment inside GitHub Actions with no S3 variables set. -/
def ciEnv : Env :=
  { github_actions := true
    s3_bucket_name := none
    s3_access_key_id := none
    s3_secret_access_key := none
    s3_endpoint_url := none }

/-- Remote config dict with all four credentials present. -/
def fullRemoteConfig : RemoteConfig :=
  { bucket_name := some "bucket"
    access_key_id := some "ak"
    secret_access_key := some "sk"
    endpoint_url := some "https://s3.example" }

/-- Remote config dict with no credential keys present. -/
def emptyRemoteConfig : RemoteConfig :=
  { bucket_name := none
    access_key_id := none
    secret_access_key := none
    endpoint_url := none }

/-- Notification config with channels enabled and no push-window gating. -/
def openCfg : NotifCfg :=
  { enable_notification := true
    has_channels := true
    push_window_enabled := false
    once_per_day := false
    in_time_range := true
    has_pushed_today := false
    dispatch_results := [("feishu", true)] }

/-- Notification config with the push window enabled, once-per-day on, a
push already recorded today, and the current time inside the window. -/
def pushedTodayCfg : NotifCfg :=
  { enable_notification := true
    has_channels := true
    push_window_enabled := true
    once_per_day := true
    in_time_range := true
    has_pushed_today := true
    dispatch_results := [("feishu", true)] }

/-- A manager explicitly configured for remote storage with a working remote
backend, local retention of 5 days and remote retention disabled; the
abstract cleanup counts witness which backend would delete data. -/
def remoteActiveManager : Manager :=
  { backend_type := "remote"
    remote_config := fullRemoteConfig
    local_retention_days := 5
    remote_retention_days := 0
    cached := none
    remote_backend_cached := false
    remote_ok := true
    local_cleanup_count := fun _ => 7
    remote_cleanup_count := fun _ => 0 }

/-- A fresh manager explicitly configured for remote storage whose remote
backend construction fails. -/
def brokenRemoteManager : Manager :=
  { backend_type := "remote"
    remote_config := emptyRemoteConfig
    local_retention_days := 0
    remote_retention_days := 0
    cached := none
    remote_backend_cached := false
    remote_ok := false
    local_cleanup_count := fun _ => 0
    remote_cleanup_count := fun _ => 0 }

/-- A manager configured with backend type auto and full remote credentials
in its config dict. -/
def autoManager : Manager :=
  { backend_type := "auto"
    remote_config := fullRemoteConfig
    local_retention_days := 0
    remote_retention_days := 0
    cached := none
    remote_backend_cached := false
    remote_ok := true
    local_cleanup_count := fun _ => 0
    remote_cleanup_count := fun _ => 0 }

/-- Run report of a daily-mode run with `openCfg`, one matching stat and a
successful dispatch: no real-time call, one summary notification. -/
def dailyRunReport : RunReport :=
  { realtime_send_calls := 0
    realtime_dispatched := false
    realtime_returned := false
    summary_send_calls := 1
    summary_dispatched := true
    summary_returned := true
    summary_html_only := false }

/-- Run report of an incremental-mode run with `openCfg`, matching stats but
zero new titles: the real-time call fires nothing, and the summary stage is
HTML-only. -/
def incrementalNoNewReport : RunReport :=
  { realtime_send_calls := 1
    realtime_dispatched := false
    realtime_returned := false
    summary_send_calls := 0
    summary_dispatched := false
    summary_returned := false
    summary_html_only := true }

/-- Python truthiness of the new-titles dict is exactly the existence of a
platform with a non-empty new-title list. -/
theorem has_any_new_titles_iff (nt : Option NewTitles) :
    has_any_new_titles nt = true ↔ ∃ p ∈ nt.getD [], p.2 ≠ [] := by
  cases nt with
  | none => simp [has_any_new_titles]
  | some l => simp [has_any_new_titles, List.any_eq_true, List.length_pos]

/-- C1: the content gate `_has_valid_content` follows the mode table:
incremental passes iff some platform has a non-empty new-title list and some
keyword-group stat has positive count; current passes iff some stat has
positive count; daily passes iff some stat has positive count or some
platform has a non-empty new-title list; and in incremental mode zero new
titles force a false gate for every stats list. -/
theorem c1_content_gate_mode_table (stats : List Stat) (nt : Option NewTitles) :
    (has_valid_content "incremental" stats nt = true ↔
      ((∃ p ∈ nt.getD [], p.2 ≠ []) ∧ ∃ s ∈ stats, 0 < s.count))
    ∧ (has_valid_content "current" stats nt = true ↔ ∃ s ∈ stats, 0 < s.count)
    ∧ (has_valid_content "daily" stats nt = true ↔
      ((∃ s ∈ stats, 0 < s.count) ∨ ∃ p ∈ nt.getD [], p.2 ≠ []))
    ∧ ((∀ p ∈ nt.getD [], p.2 = []) →
      has_valid_content "incremental" stats nt = false) := by
  have hinc : has_valid_content "incremental" stats nt
      = (has_any_new_titles nt
        && stats.any (fun stat => decide (0 < stat.count))) := by
    rw [has_valid_content, if_pos rfl]
  have hcur : has_valid_content "current" stats nt
      = stats.any (fun stat => decide (0 < stat.count)) := by
    rw [has_valid_content, if_neg (by decide), if_pos rfl]
  have hday : has_valid_content "daily" stats nt
      = (stats.any (fun stat => decide (0 < stat.count))
        || has_any_new_titles nt) := by
    rw [has_valid_content, if_neg (by decide), if_neg (by decide)]
  refine ⟨?_, ?_, ?_, ?_⟩
  · rw [hinc, Bool.and_eq_true, has_any_new_titles_iff]
    simp [List.any_eq_true]
  · rw [hcur]
    simp [List.any_eq_true]
  · rw [hday, Bool.or_eq_true, has_any_new_titles_iff]
    simp [List.any_eq_true]
  · intro h
    have hfalse : has_any_new_titles nt = false := by
      rw [← Bool.not_eq_true, has_any_new_titles_iff]
      push_neg
      exact h
    rw [hinc, hfalse, Bool.false_and]

/-- Witness for C1 at a concrete input: incremental mode with a matching
stat but an empty new-title list yields a false gate. -/
theorem c1_content_gate_witness :
    has_valid_content "incremental" [{ count := 3 }] (some [("p1", [])])
      = false :=
  (c1_content_gate_mode_table [{ count := 3 }] (some [("p1", [])])).2.2.2
    (by simp)

/-- C2 evaluation at the failing input: a manager explicitly configured for
remote storage with a working remote backend and a positive local retention
cleans the remote backend with the local retention value and never calls
cleanup on the Local backend, so the Local backend's 7 stale day-buckets
survive and the returned count is 0. -/
theorem c2_cleanup_never_touches_local_backend :
    0 < remoteActiveManager.local_retention_days
    ∧ remoteActiveManager.local_cleanup_count
        remoteActiveManager.local_retention_days = 7
    ∧ cleanup_old_data remoteActiveManager plainEnv
      = (0, [(BackendKind.remoteB, 5)]) :=
  ⟨by decide, rfl, rfl⟩

/-- C4: with backend type auto, resolution yields remote iff the process is
in GitHub Actions and all four effective credentials (config value first,
else environment variable) are present, and yields local in every other
auto case; an explicit local or remote type is returned unchanged. -/
theorem c4_resolve_backend_type (m : Manager) (env : Env) :
    (m.backend_type = "auto" →
      ((resolve_backend_type m env = "remote" ↔
          (env.github_actions = true
            ∧ truthy (pyOr m.remote_config.bucket_name env.s3_bucket_name)
                = true
            ∧ truthy (pyOr m.remote_config.access_key_id env.s3_access_key_id)
                = true
            ∧ truthy (pyOr m.remote_config.secret_access_key
                env.s3_secret_access_key) = true
            ∧ truthy (pyOr m.remote_config.endpoint_url env.s3_endpoint_url)
                = true))
        ∧ (resolve_backend_type m env = "remote"
          ∨ resolve_backend_type m env = "local")))
    ∧ (m.backend_type = "local" → resolve_backend_type m env = "local")
    ∧ (m.backend_type = "remote" → resolve_backend_type m env = "remote") := by
  have hrc : has_remote_config m env = true ↔
      (truthy (pyOr m.remote_config.bucket_name env.s3_bucket_name) = true
        ∧ truthy (pyOr m.remote_config.access_key_id env.s3_access_key_id)
            = true
        ∧ truthy (pyOr m.remote_config.secret_access_key
            env.s3_secret_access_key) = true
        ∧ truthy (pyOr m.remote_config.endpoint_url env.s3_endpoint_url)
            = true) := by
    unfold has_remote_config
    simp [Bool.and_eq_true, and_assoc]
  refine ⟨?_, ?_, ?_⟩
  · intro ha
    constructor
    · rw [resolve_backend_type, if_pos ha]
      by_cases hg : env.github_actions = true
      · rw [if_pos hg]
        by_cases hc : has_remote_config m env = true
        · rw [if_pos hc]
          have hcreds := hrc.mp hc
          constructor
          · intro _
            exact ⟨hg, hcreds.1, hcreds.2.1, hcreds.2.2.1, hcreds.2.2.2⟩
          · intro _
            rfl
        · rw [if_neg hc]
          constructor
          · intro hcontra
            exact absurd hcontra (by decide)
          · intro hcreds
            exact absurd
              (hrc.mpr ⟨hcreds.2.1, hcreds.2.2.1, hcreds.2.2.2.1,
                hcreds.2.2.2.2⟩) hc
      · rw [if_neg hg]
        constructor
        · intro hcontra
          exact absurd hcontra (by decide)
        · intro hcreds
          exact absurd hcreds.1 hg
    · rw [resolve_backend_type, if_pos ha]
      by_cases hg : env.github_actions = true
      · rw [if_pos hg]
        by_cases hc : has_remote_config m env = true
        · rw [if_pos hc]
          exact Or.inl rfl
        · rw [if_neg hc]
          exact Or.inr rfl
      · rw [if_neg hg]
        exact Or.inr rfl
  · intro h
    rw [resolve_backend_type, if_neg (by rw [h]; decide)]
    exact h
  · intro h
    rw [resolve_backend_type, if_neg (by rw [h]; decide)]
    exact h

/-- Witness for C4 at a concrete input: auto type, GitHub Actions on and all
four credentials present in the config dict resolve to remote. -/
theorem c4_resolve_backend_type_witness :
    resolve_backend_type autoManager ciEnv = "remote" :=
  ((c4_resolve_backend_type autoManager ciEnv).1 rfl).1.mpr
    ⟨rfl, by decide, by decide, by decide, by decide⟩

/-- C5: on a fresh manager whose resolved type is remote, a failed remote
backend construction makes `get_backend` return the local backend; the
construction failure is an `Option` in the embedding because the source
catches every exception of the remote constructor, so nothing escapes. -/
theorem c5_remote_failure_falls_back_to_local (m : Manager) (env : Env)
    (hc : m.cached = none)
    (hr : resolve_backend_type m env = "remote")
    (hf : create_remote_backend m = none) :
    (get_backend m env).1 = BackendKind.localB := by
  unfold get_backend
  rw [hc]
  simp [hr, hf]

/-- Witness for C5 at a concrete input: an explicit remote manager whose
remote construction fails yields the local backend. -/
theorem c5_remote_failure_witness :
    (get_backend brokenRemoteManager plainEnv).1 = BackendKind.localB :=
  c5_remote_failure_falls_back_to_local brokenRemoteManager plainEnv
    rfl rfl rfl

/-- C6: with the push window enabled, once-per-day on, and a push already
recorded today, `_send_notification_if_needed` returns false and never
invokes the dispatcher, for every time of day (inside or outside the
window), every report mode and every report content. -/
theorem c6_once_per_day_denies (cfg : NotifCfg) (report_mode : String)
    (stats : List Stat) (nt : Option NewTitles)
    (hw : cfg.push_window_enabled = true) (ho : cfg.once_per_day = true)
    (hp : cfg.has_pushed_today = true) :
    (send_notification_if_needed cfg report_mode stats nt).returned = false
    ∧ (send_notification_if_needed cfg report_mode stats nt).dispatched
        = false := by
  unfold send_notification_if_needed
  split_ifs <;> simp_all

/-- Witness for C6 at a concrete input: a recorded push today denies the
send even though the time is inside the window and content matches. -/
theorem c6_once_per_day_denies_witness :
    (send_notification_if_needed pushedTodayCfg "current" [{ count := 1 }]
        none).returned = false
    ∧ (send_notification_if_needed pushedTodayCfg "current" [{ count := 1 }]
        none).dispatched = false :=
  c6_once_per_day_denies pushedTodayCfg "current" [{ count := 1 }] none
    rfl rfl rfl

/-- Shape of every successfully assembled run report: each of the two
notification kinds is attempted at most once, the summary stage is HTML-only
exactly when the strategy both generates a summary and sends real-time, and
a dispatched real-time notification excludes any summary send call. -/
theorem run_report_shape (st : ModeStrategy) (cfg : NotifCfg) (mode : String)
    (lo : Bool) (rts : List Stat) (rtn : Option NewTitles) (ss : List Stat)
    (sn : Option NewTitles) (r : RunReport)
    (hr : r = mk_run_report
      (if st.should_send_realtime then
        some (send_notification_if_needed cfg mode rts rtn)
      else none)
      (summary_stage st cfg mode lo ss sn).1
      (summary_stage st cfg mode lo ss sn).2) :
    r.realtime_send_calls ≤ 1 ∧ r.summary_send_calls ≤ 1
    ∧ r.summary_html_only
        = (st.should_generate_summary && st.should_send_realtime)
    ∧ (r.realtime_dispatched = true → r.summary_send_calls = 0) := by
  subst hr
  cases hsr : st.should_send_realtime <;>
    cases hgs : st.should_generate_summary <;>
      cases lo <;>
        simp [mk_run_report, summary_stage, hsr, hgs]

/-- C3 counterexample: an incremental-mode run with notifications fully
enabled, matching stats but zero new titles never dispatches the real-time
notification, yet the summary stage is still skipped (HTML artifact only,
no summary send call) — so the summary is not skipped exactly when the
real-time notification fired. -/
theorem c3_counterexample_summary_skipped_without_realtime :
    execute_mode_strategy "incremental" openCfg true [{ count := 1 }]
        (some [("p1", [])]) [{ count := 1 }] (some [("p1", [])])
      = Except.ok incrementalNoNewReport
    ∧ incrementalNoNewReport.realtime_dispatched = false
    ∧ incrementalNoNewReport.realtime_returned = false
    ∧ incrementalNoNewReport.summary_html_only = true
    ∧ incrementalNoNewReport.summary_send_calls = 0 :=
  ⟨rfl, rfl, rfl, rfl, rfl⟩

/-- C3 amended: per run at most one real-time and at most one summary
notification is attempted, and the summary stage is HTML-only exactly when
the active mode strategy both generates a summary and is configured to send
real-time (incremental and current modes), regardless of whether the
real-time notification actually fired; consequently a dispatched real-time
notification excludes a summary notification in the same run. -/
theorem c3_amended_notification_counts (report_mode : String) (cfg : NotifCfg)
    (load_ok : Bool) (rt_stats : List Stat) (rt_new : Option NewTitles)
    (sum_stats : List Stat) (sum_new : Option NewTitles) (r : RunReport)
    (h : execute_mode_strategy report_mode cfg load_ok rt_stats rt_new
      sum_stats sum_new = Except.ok r) :
    r.realtime_send_calls ≤ 1 ∧ r.summary_send_calls ≤ 1
    ∧ r.summary_html_only
        = ((get_mode_strategy report_mode).should_generate_summary
          && (get_mode_strategy report_mode).should_send_realtime)
    ∧ (r.realtime_dispatched = true → r.summary_send_calls = 0) := by
  simp only [execute_mode_strategy] at h
  split at h
  · split at h
    · rw [Except.ok.injEq] at h
      exact run_report_shape _ cfg report_mode load_ok rt_stats rt_new
        sum_stats sum_new r h.symm
    · exact absurd h (by simp)
  · rw [Except.ok.injEq] at h
    exact run_report_shape _ cfg report_mode load_ok rt_stats rt_new
      sum_stats sum_new r h.symm

/-- Witness for the amended C3 at a concrete input: a daily-mode run with
one summary notification sent. -/
theorem c3_amended_notification_counts_witness :
    dailyRunReport.realtime_send_calls ≤ 1
    ∧ dailyRunReport.summary_send_calls ≤ 1
    ∧ dailyRunReport.summary_html_only
        = ((get_mode_strategy "daily").should_generate_summary
          && (get_mode_strategy "daily").should_send_realtime)
    ∧ (dailyRunReport.realtime_dispatched = true →
        dailyRunReport.summary_send_calls = 0) :=
  c3_amended_notification_counts "daily" openCfg true [{ count := 1 }] none
    [{ count := 1 }] none dailyRunReport rfl

/-- C9: `_execute_mode_strategy` aborts with an error exactly when the run
is in current mode and reading back the just-saved analysis data fails, and
in that case the error is the data-consistency `RuntimeError`; failed
platform fetches or failed channel sends (inputs of the model) never
produce an error. -/
theorem c9_consistency_error_fatal (report_mode : String) (cfg : NotifCfg)
    (load_ok : Bool) (rt_stats : List Stat) (rt_new : Option NewTitles)
    (sum_stats : List Stat) (sum_new : Option NewTitles) :
    ((∃ e, execute_mode_strategy report_mode cfg load_ok rt_stats rt_new
        sum_stats sum_new = Except.error e)
      ↔ (report_mode = "current" ∧ load_ok = false))
    ∧ (report_mode = "current" → load_ok = false →
      execute_mode_strategy report_mode cfg load_ok rt_stats rt_new
          sum_stats sum_new
        = Except.error
            "Data consistency check failed: read failed after save") := by
  by_cases hm : report_mode = "current"
  · subst hm
    cases load_ok with
    | false => simp [execute_mode_strategy]
    | true => simp [execute_mode_strategy]
  · constructor
    · constructor
      · intro he
        obtain ⟨e, he⟩ := he
        rw [execute_mode_strategy] at he
        rw [if_neg hm] at he
        exact absurd he (by simp)
      · intro hcontra
        exact absurd hcontra.1 hm
    · intro hcontra
      exact absurd hcontra hm

/-- Witness for C9 at a concrete input: current mode with a failed re-read
aborts with the consistency error. -/
theorem c9_consistency_error_fatal_witness :
    execute_mode_strategy "current" openCfg false [] none [] none
      = Except.error "Data consistency check failed: read failed after save" :=
  (c9_consistency_error_fatal "current" openCfg false [] none [] none).2
    rfl rfl

/-- C10: every report-mode string other than the three known keys selects
the daily strategy, whose policy is no real-time push and summary generation
enabled, and the whole mode-strategy execution on such a mode is literally
the daily-mode execution on the same inputs. -/
theorem c10_unknown_mode_defaults_to_daily (report_mode : String)
    (cfg : NotifCfg) (load_ok : Bool) (rt_stats : List Stat)
    (rt_new : Option NewTitles) (sum_stats : List Stat)
    (sum_new : Option NewTitles)
    (h1 : report_mode ≠ "incremental") (h2 : report_mode ≠ "current")
    (h3 : report_mode ≠ "daily") :
    get_mode_strategy report_mode = daily_strategy
    ∧ daily_strategy.should_send_realtime = false
    ∧ daily_strategy.should_generate_summary = true
    ∧ execute_mode_strategy report_mode cfg load_ok rt_stats rt_new sum_stats
        sum_new
      = execute_mode_strategy "daily" cfg load_ok rt_stats rt_new sum_stats
        sum_new := by
  have hs : get_mode_strategy report_mode = daily_strategy := by
    unfold get_mode_strategy MODE_STRATEGIES
    rw [if_neg h1, if_neg h2, if_neg h3]
    rfl
  have hsd : get_mode_strategy "daily" = daily_strategy := by
    unfold get_mode_strategy MODE_STRATEGIES
    rw [if_neg (by decide), if_neg (by decide), if_pos rfl]
    rfl
  have hv : ∀ sts nt', has_valid_content report_mode sts nt'
      = has_valid_content "daily" sts nt' := by
    intro sts nt'
    unfold has_valid_content
    rw [if_neg h1, if_neg h2, if_neg (by decide), if_neg (by decide)]
  have hsend : ∀ sts nt',
      send_notification_if_needed cfg report_mode sts nt'
        = send_notification_if_needed cfg "daily" sts nt' := by
    intro sts nt'
    unfold send_notification_if_needed
    rw [hv]
  have hsum : summary_stage daily_strategy cfg report_mode load_ok sum_stats
      sum_new
      = summary_stage daily_strategy cfg "daily" load_ok sum_stats
        sum_new := by
    unfold summary_stage
    rw [hsend]
  refine ⟨hs, rfl, rfl, ?_⟩
  simp only [execute_mode_strategy, hs, hsd]
  rw [if_neg h2, if_neg (show ¬("daily" = "current") by decide), hsum,
    hsend rt_stats rt_new]

/-- Witness for C10 at a concrete input: the unknown mode string weekly runs
exactly like daily mode. -/
theorem c10_unknown_mode_defaults_to_daily_witness :
    get_mode_strategy "weekly" = daily_strategy
    ∧ daily_strategy.should_send_realtime = false
    ∧ daily_strategy.should_generate_summary = true
    ∧ execute_mode_strategy "weekly" openCfg true [{ count := 1 }] none
        [{ count := 1 }] none
      = execute_mode_strategy "daily" openCfg true [{ count := 1 }] none
        [{ count := 1 }] none :=
  c10_unknown_mode_defaults_to_daily "weekly" openCfg true [{ count := 1 }]
    none [{ count := 1 }] none (by decide) (by decide) (by decide)

/-- A non-nil list is not `isEmpty`. -/
theorem list_isEmpty_false {α : Type} {l : List α} (h : l ≠ []) :
    l.isEmpty = false := by
  cases l with
  | nil => exact absurd rfl h
  | cons a t => rfl

/-- Lookup misses every association list whose keys avoid the query. -/
theorem lookup_eq_none_of_not_mem_keys {β : Type} (l : List (String × β))
    (k : String) (h : k ∉ l.map Prod.fst) : l.lookup k = none := by
  induction l with
  | nil => rfl
  | cons p t ih =>
    simp only [List.map_cons, List.mem_cons] at h
    push_neg at h
    obtain ⟨h1, h2⟩ := h
    rw [show p = (p.1, p.2) from rfl, List.lookup_cons]
    rw [beq_eq_false_iff_ne.mpr h1]
    exact ih h2

/-- Looking a key up after filtering out the empty-valued bindings of a
duplicate-free association list is looking it up and discarding an empty
value. -/
theorem lookup_filter_nonempty (l : List (String × List String)) (k : String)
    (hnd : (l.map Prod.fst).Nodup) :
    (l.filter (fun p => !p.2.isEmpty)).lookup k
      = match l.lookup k with
        | none => none
        | some v => if v.isEmpty then none else some v := by
  induction l with
  | nil => rfl
  | cons p t ih =>
    simp only [List.map_cons, List.nodup_cons] at hnd
    obtain ⟨hk, hnd'⟩ := hnd
    by_cases hkp : k = p.1
    · subst hkp
      by_cases hv : p.2.isEmpty = true
      · have hfil : (p :: t).filter (fun q => !q.2.isEmpty)
            = t.filter (fun q => !q.2.isEmpty) := by
          simp [List.filter_cons, hv]
        rw [hfil]
        have hnone : (t.filter (fun q => !q.2.isEmpty)).lookup p.1 = none := by
          apply lookup_eq_none_of_not_mem_keys
          intro hmem
          exact hk
            (((t.filter_sublist).map Prod.fst).subset hmem)
        rw [hnone, show p = (p.1, p.2) from rfl, List.lookup_cons]
        simp [hv]
      · have hfil : (p :: t).filter (fun q => !q.2.isEmpty)
            = p :: t.filter (fun q => !q.2.isEmpty) := by
          simp [List.filter_cons, hv]
        rw [hfil, show p = (p.1, p.2) from rfl, List.lookup_cons,
          List.lookup_cons]
        simp [hv]
    · have hbeq : (k == p.1) = false := beq_eq_false_iff_ne.mpr hkp
      by_cases hv : p.2.isEmpty = true
      · have hfil : (p :: t).filter (fun q => !q.2.isEmpty)
            = t.filter (fun q => !q.2.isEmpty) := by
          simp [List.filter_cons, hv]
        rw [hfil, ih hnd', show p = (p.1, p.2) from rfl, List.lookup_cons,
          hbeq]
      · have hfil : (p :: t).filter (fun q => !q.2.isEmpty)
            = p :: t.filter (fun q => !q.2.isEmpty) := by
          simp [List.filter_cons, hv]
        rw [hfil, show p = (p.1, p.2) from rfl, List.lookup_cons,
          List.lookup_cons, hbeq]
        exact ih hnd'

/-- Deduplicating a non-empty constant list keeps exactly its value. -/
theorem dedup_of_all_eq :
    ∀ (l : List Nat) (n : Nat), l ≠ [] → (∀ a ∈ l, a = n) → l.dedup = [n] := by
  intro l n
  induction l with
  | nil =>
    intro hne _
    exact absurd rfl hne
  | cons x t ih =>
    intro _ h
    have hx : x = n := h x (List.mem_cons_self x t)
    by_cases ht : t = []
    · subst ht
      subst hx
      simp
    · have htd := ih ht (fun a ha => h a (List.mem_cons_of_mem x ha))
      have hxm : x ∈ t := by
        obtain ⟨a, ha⟩ := List.exists_mem_of_ne_nil t ht
        have han := h a (List.mem_cons_of_mem x ha)
        rw [hx, ← han]
        exact ha
      rw [List.dedup_cons_of_mem hxm, htd]

/-- A list with two distinct members deduplicates to length above one. -/
theorem one_lt_dedup_length {l : List Nat} {a b : Nat} (ha : a ∈ l)
    (hb : b ∈ l) (hab : a ≠ b) : 1 < l.dedup.length := by
  have ha' : a ∈ l.dedup := List.mem_dedup.mpr ha
  have hb' : b ∈ l.dedup := List.mem_dedup.mpr hb
  by_contra hle
  push_neg at hle
  cases hdl : l.dedup with
  | nil =>
    rw [hdl] at ha'
    exact absurd ha' (List.not_mem_nil a)
  | cons x t =>
    rw [hdl] at ha' hb' hle
    have ht : t = [] := by
      rw [List.length_cons] at hle
      exact List.length_eq_zero.mp (by omega)
    subst ht
    simp only [List.mem_singleton] at ha' hb'
    exact hab (ha'.trans hb'.symm)

/-- C7: for every duplicate-free configs dict, an empty or missing required
key makes `validate_paired_configs` report the channel as not configured
with (true, 0); with all required keys non-empty, two non-empty lists of
different lengths reject the channel with (false, 0); and a common length n
over the non-empty lists validates with (true, n). -/
theorem c7_validate_paired_configs (configs : List (String × List String))
    (keys : List String) (hnd : (configs.map Prod.fst).Nodup) :
    ((∃ k ∈ keys, configs.lookup k = none ∨ configs.lookup k = some []) →
      validate_paired_configs configs (some keys) = (true, 0))
    ∧ ((∀ k ∈ keys, ∃ v, configs.lookup k = some v ∧ v ≠ []) →
      ((∃ p ∈ configs, ∃ q ∈ configs, p.2 ≠ [] ∧ q.2 ≠ []
          ∧ p.2.length ≠ q.2.length) →
        validate_paired_configs configs (some keys) = (false, 0))
      ∧ (∀ n : Nat, (∃ p ∈ configs, p.2 ≠ [] ∧ p.2.length = n) →
        (∀ p ∈ configs, p.2 = [] ∨ p.2.length = n) →
        validate_paired_configs configs (some keys) = (true, n))) := by
  constructor
  · intro hex
    obtain ⟨k, hk, hlk⟩ := hex
    have hreq : (keys.any fun key =>
        match (configs.filter fun p => !p.2.isEmpty).lookup key with
        | none => true
        | some v => v.isEmpty) = true := by
      rw [List.any_eq_true]
      refine ⟨k, hk, ?_⟩
      rw [lookup_filter_nonempty configs k hnd]
      rcases hlk with h | h
      · rw [h]
      · rw [h]
        rfl
    simp only [validate_paired_configs]
    by_cases hempty : (configs.filter fun p => !p.2.isEmpty).isEmpty = true
    · rw [if_pos hempty]
    · rw [if_neg hempty, if_pos hreq]
  · intro hall
    have hreqf : (keys.any fun key =>
        match (configs.filter fun p => !p.2.isEmpty).lookup key with
        | none => true
        | some v => v.isEmpty) = false := by
      rw [Bool.eq_false_iff]
      intro hany
      rw [List.any_eq_true] at hany
      obtain ⟨k, hk, hkp⟩ := hany
      obtain ⟨v, hv, hvne⟩ := hall k hk
      rw [lookup_filter_nonempty configs k hnd, hv] at hkp
      simp [list_isEmpty_false hvne] at hkp
    constructor
    · intro hmis
      obtain ⟨p, hp, q, hq, hpne, hqne, hlen⟩ := hmis
      have hpm : p ∈ configs.filter (fun r => !r.2.isEmpty) :=
        List.mem_filter.mpr ⟨hp, by simp [list_isEmpty_false hpne]⟩
      have hqm : q ∈ configs.filter (fun r => !r.2.isEmpty) :=
        List.mem_filter.mpr ⟨hq, by simp [list_isEmpty_false hqne]⟩
      have hlp := List.mem_map_of_mem (fun r => r.2.length) hpm
      have hlq := List.mem_map_of_mem (fun r => r.2.length) hqm
      have hdl := one_lt_dedup_length hlp hlq hlen
      have hempty : (configs.filter fun r => !r.2.isEmpty).isEmpty = false :=
        list_isEmpty_false (List.ne_nil_of_mem hpm)
      simp only [validate_paired_configs]
      rw [if_neg (by simp [hempty]), if_neg (by simp [hreqf]), if_pos hdl]
    · intro n hex hallp
      obtain ⟨p, hp, hpne, hpn⟩ := hex
      have hpm : p ∈ configs.filter (fun r => !r.2.isEmpty) :=
        List.mem_filter.mpr ⟨hp, by simp [list_isEmpty_false hpne]⟩
      have hmapn : ∀ a ∈ (configs.filter (fun r => !r.2.isEmpty)).map
          (fun r => r.2.length), a = n := by
        intro a ha
        obtain ⟨r, hr, hra⟩ := List.mem_map.mp ha
        obtain ⟨hrc, hrp⟩ := List.mem_filter.mp hr
        have hrne : r.2 ≠ [] := by
          intro hh
          rw [hh] at hrp
          simp at hrp
        rcases hallp r hrc with h | h
        · exact absurd h hrne
        · exact hra ▸ h
      have hmapne : (configs.filter (fun r => !r.2.isEmpty)).map
          (fun r => r.2.length) ≠ [] :=
        List.ne_nil_of_mem (List.mem_map_of_mem (fun r => r.2.length) hpm)
      have hded := dedup_of_all_eq _ n hmapne hmapn
      have hempty : (configs.filter fun r => !r.2.isEmpty).isEmpty = false :=
        list_isEmpty_false (List.ne_nil_of_mem hpm)
      simp only [validate_paired_configs]
      rw [if_neg (by simp [hempty]), if_neg (by simp [hreqf]),
        if_neg (by simp [hded]), hded]
      rfl

/-- Witness for C7 at a concrete input: two paired keys with two accounts
each validate with count 2. -/
theorem c7_validate_paired_configs_witness :
    validate_paired_configs
      [("token", ["t1", "t2"]), ("chat_id", ["c1", "c2"])]
      (some ["token", "chat_id"]) = (true, 2) := by
  refine ((c7_validate_paired_configs
      [("token", ["t1", "t2"]), ("chat_id", ["c1", "c2"])]
      ["token", "chat_id"] (by decide)).2 ?_).2 2 ?_ ?_
  · intro k hk
    simp only [List.mem_cons, List.not_mem_nil, or_false] at hk
    rcases hk with rfl | rfl
    · exact ⟨["t1", "t2"], rfl, by decide⟩
    · exact ⟨["c1", "c2"], rfl, by decide⟩
  · exact ⟨("token", ["t1", "t2"]), by simp, by decide, rfl⟩
  · intro p hp
    simp only [List.mem_cons, List.not_mem_nil, or_false] at hp
    rcases hp with rfl | rfl
    · right
      rfl
    · right
      rfl

/-- C8 counterexample: the input made only of separators is a non-empty
delimited string whose ordered element list is three empty placeholders,
yet `parse_multi_account_config` returns the empty list instead of
preserving them. -/
theorem c8_counterexample_all_placeholders_dropped :
    (";;" : String) ≠ ""
    ∧ (py_split ";;" ';').map py_strip = ["", "", ""]
    ∧ parse_multi_account_config ";;" ';' = []
    ∧ parse_multi_account_config ";;" ';' ≠ ["", "", ""] :=
  ⟨by decide, by decide, by decide, by decide⟩

/-- C8 amended: an empty input string parses to the empty list, a string all
of whose stripped elements are empty also parses to the empty list (channel
disabled), and otherwise parsing returns the ordered stripped element list
with individual empty elements preserved as placeholders, as in
a;;c parsing to [a, empty, c]. -/
theorem c8_amended_parse_behavior (config_value : String) (separator : Char) :
    (config_value = "" →
      parse_multi_account_config config_value separator = [])
    ∧ (((py_split config_value separator).map py_strip).all
          (fun acc => acc.isEmpty) = true →
        parse_multi_account_config config_value separator = [])
    ∧ (((py_split config_value separator).map py_strip).all
          (fun acc => acc.isEmpty) = false →
        parse_multi_account_config config_value separator
          = (py_split config_value separator).map py_strip)
    ∧ parse_multi_account_config "a;;c" ';' = ["a", "", "c"] := by
  refine ⟨?_, ?_, ?_, by decide⟩
  · intro h
    subst h
    rfl
  · intro h
    unfold parse_multi_account_config
    by_cases he : config_value.isEmpty = true
    · rw [if_pos he]
    · rw [if_neg he, if_pos h]
  · intro h
    have he : config_value.isEmpty = false := by
      by_contra hc
      have hemp : config_value.isEmpty = true := by
        cases hcc : config_value.isEmpty
        · exact absurd hcc hc
        · rfl
      have hnil : config_value = "" := (String.isEmpty_iff config_value).mp hemp
      subst hnil
      have hall : ((py_split "" separator).map py_strip).all
          (fun acc => acc.isEmpty) = true := rfl
      rw [h] at hall
      exact absurd hall (by decide)
    unfold parse_multi_account_config
    rw [if_neg (by simp [he]), if_neg (by simp [h])]

/-- Witness for the amended C8 at concrete inputs: the empty string parses
to the empty list and a string with an interior placeholder parses to the
stripped element list. -/
theorem c8_amended_parse_behavior_witness :
    parse_multi_account_config "" ';' = []
    ∧ parse_multi_account_config "x;;y" ';'
      = (py_split "x;;y" ';').map py_strip :=
  ⟨(c8_amended_parse_behavior "" ';').1 rfl,
    (c8_amended_parse_behavior "x;;y" ';').2.2.1 (by decide)⟩

end TrendRadar
